import Mathlib

/-!
Verification of the warm-transfer repository's client layer against its
natural-language specification.

The definitions below are a shallow embedding of the TypeScript source:
  * `frontend/src/lib/api.ts`      — the `ApiClient` class and the `api` wrappers
  * `frontend/src/hooks/useLiveKit.ts` — the React hook's transcript and transfer logic
  * the LiveKit module (`lib/livekit.ts`) — `LiveKitManager` and the standalone
    fetch helpers `initiateTransfer`, `getJoinToken`
  * the backend transfer registry, which is not part of the frontend sources,
    is modelled from the specification (see `Registry` below).

JavaScript values appearing in request/response bodies are modelled by a small
JSON datatype; `JSON.stringify` of an object literal with possibly-`undefined`
optional fields is modelled by emitting the present fields in literal order
(stringify drops `undefined`-valued keys).  JavaScript truthiness (`x || y`)
is modelled explicitly by `Json.truthy` / `jsOr` / `jsOrStr`.
-/

/-- JSON values (no array constructor is needed by any claim; objects keep
field order, as `JSON.stringify` does). -/
inductive Json where
  | str : String → Json
  | num : Int → Json
  | bool : Bool → Json
  | null : Json
  | obj : List (String × Json) → Json

/-- Field lookup in an association list of JSON object fields. -/
def lookupFields : List (String × Json) → String → Option Json
  | [], _ => none
  | (k', v) :: rest, k => if k' = k then some v else lookupFields rest k

/-- Model of `o.k` property access on a JSON value: `none` models `undefined`. -/
def Json.lookup (j : Json) (k : String) : Option Json :=
  match j with
  | .obj fs => lookupFields fs k
  | _ => none

/-- JavaScript truthiness of a JSON value. -/
def Json.truthy : Json → Bool
  | .str s => s ≠ ""
  | .num n => n ≠ 0
  | .bool b => b
  | .null => false
  | .obj _ => true

/-- JavaScript `a || b` where `a` is a possibly-absent property
(`none` models `undefined`). -/
def jsOr (a : Option Json) (b : Json) : Json :=
  match a with
  | some v => if v.truthy then v else b
  | none => b

/-- JavaScript `a || b` on an optional string (`undefined` and `""` are falsy). -/
def jsOrStr (a : Option String) (b : String) : String :=
  match a with
  | some s => if s = "" then b else s
  | none => b

/-- Model of `JSON.stringify` of an optional object field: the key is omitted when the
value is `undefined`. -/
def stringifyOpt (k : String) (v : Option Json) : List (String × Json) :=
  match v with
  | some j => [(k, j)]
  | none => []

/-- Whether `sub` starts the character list `l`. -/
def charsHaveStart : List Char → List Char → Bool
  | [], _ => true
  | _ :: _, [] => false
  | a :: as, b :: bs => a == b && charsHaveStart as bs

/-- Whether `sub` occurs contiguously inside `l`. -/
def charsContain : List Char → List Char → Bool
  | [], sub => charsHaveStart sub []
  | a :: as, sub => charsHaveStart sub (a :: as) || charsContain as sub

/-- Model of `s.includes(sub)`: substring containment. -/
def strIncludes (s sub : String) : Bool :=
  charsContain s.data sub.data

/-- Whitespace as trimmed by JavaScript's `String.prototype.trim` (the
characters occurring in this development). -/
def isSpaceChar (c : Char) : Bool :=
  c == ' ' || c == '\t' || c == '\n' || c == '\r'

/-- Drop leading whitespace characters. -/
def dropLeadingWs : List Char → List Char
  | [] => []
  | c :: cs => if isSpaceChar c then dropLeadingWs cs else c :: cs

/-- Model of `s.trim()`: remove leading and trailing whitespace. -/
def strTrim (s : String) : String :=
  ⟨(dropLeadingWs (dropLeadingWs s.data).reverse).reverse⟩

/-- An HTTP request as issued by `fetch`: URL, method, JSON body (if any). -/
structure FetchCall where
  url : String
  method : String
  body : Option Json

/-- The value of field `k` in a request's JSON body (`none` when the request
has no body or the body has no such field). -/
def FetchCall.bodyField (c : FetchCall) (k : String) : Option Json :=
  match c.body with
  | some j => j.lookup k
  | none => none

/-- JavaScript truthiness of a possibly-absent property
(`undefined` is falsy). -/
def truthyOpt (o : Option Json) : Bool :=
  match o with
  | some v => v.truthy
  | none => false

/-- The part of a `fetch` `Response` the client inspects: `ok`, `status`,
`statusText`, the `content-type` header, and the result of `response.json()`
(`none` when the body does not parse as JSON). -/
structure Response where
  ok : Bool
  status : Nat
  statusText : String
  contentType : Option String
  jsonBody : Option Json

/-- The `ApiError` object thrown by `ApiClient.handleResponse`. -/
structure ApiError where
  message : Json
  status : Nat
  details : Option Json

/-- What a client call can throw: the structured `ApiError`, or the
`SyntaxError` from `response.json()` failing on a successful response. -/
inductive JsError where
  | apiError : ApiError → JsError
  | jsonParseError : JsError

/-- Whether the `content-type` header indicates JSON
(`contentType && contentType.includes('application/json')`). -/
def ctIsJson (ct : Option String) : Bool :=
  match ct with
  | some s => strIncludes s "application/json"
  | none => false

namespace ApiClient

/-- Model of `ApiClient.handleResponse` from `frontend/src/lib/api.ts`:
on a non-ok response, throw an `ApiError` whose message is
`errorData.detail || errorData.message || 'HTTP {status}: {statusText}'`;
on an ok response, return the parsed JSON when the content type is JSON,
else the empty object. -/
def handleResponse (r : Response) : Except JsError Json :=
  if r.ok = false then
    let dflt : Json := .str ("HTTP " ++ toString r.status ++ ": " ++ r.statusText)
    let msg : Json :=
      match r.jsonBody with
      | some body => jsOr (body.lookup "detail") (jsOr (body.lookup "message") dflt)
      | none => dflt
    .error (.apiError { message := msg, status := r.status, details := r.jsonBody })
  else
    if ctIsJson r.contentType then
      match r.jsonBody with
      | some j => .ok j
      | none => .error .jsonParseError
    else
      .ok (.obj [])

/-- Model of `ApiClient.request`: issue exactly one `fetch` of `baseUrl ++ endpoint`
and hand the response to `handleResponse`; the list records every fetch
performed during the invocation (the code contains no retry loop). -/
def request (baseUrl endpoint method : String) (body : Option Json)
    (net : Response) : List FetchCall × Except JsError Json :=
  ([{ url := baseUrl ++ endpoint, method := method, body := body }],
   handleResponse net)

/-- The fields of a room record returned by `GET /api/rooms/`. -/
structure RoomInfo where
  room_id : String
  room_name : String
  room_type : String
  created_at : String
  is_active : Bool
deriving Repr, DecidableEq

/-- Model of `ApiClient.findRoomByName`: list the rooms, then
`rooms.find(room => room.room_name === roomName && room.is_active)`. -/
def findRoomByName (rooms : List RoomInfo) (roomName : String) : Option RoomInfo :=
  rooms.find? (fun room => room.room_name == roomName && room.is_active)

/-- Model of `ApiClient.createRoom`: POST /api/rooms/create with the caller's data
object serialized (optional fields dropped when `undefined`). -/
def createRoom (room_name : String) (room_type : Option String)
    (max_participants : Option Nat) : FetchCall :=
  { url := "/api/rooms/create", method := "POST",
    body := some (.obj ([("room_name", .str room_name)]
      ++ stringifyOpt "room_type" (room_type.map .str)
      ++ stringifyOpt "max_participants" (max_participants.map fun n => .num n))) }

/-- Model of `ApiClient.transferCall`: POST /api/rooms/transfer with snake_case body
fields `room_id`, `target_agent_id`, `call_summary`. -/
def transferCall (targetAgentId roomId : String) (callSummary : Option String) :
    FetchCall :=
  { url := "/api/rooms/transfer", method := "POST",
    body := some (.obj ([("room_id", .str roomId),
      ("target_agent_id", .str targetAgentId)]
      ++ stringifyOpt "call_summary" (callSummary.map .str))) }

/-- Model of `ApiClient.generateJoinToken`: POST /api/participants/token with the
caller's data object serialized in field order. -/
def generateJoinToken (room_id identity name : String) (role : Option String)
    (metadata : Option Json) : FetchCall :=
  { url := "/api/participants/token", method := "POST",
    body := some (.obj ([("room_id", .str room_id), ("identity", .str identity),
      ("name", .str name)]
      ++ stringifyOpt "role" (role.map .str)
      ++ stringifyOpt "metadata" metadata)) }

/-- Model of `ApiClient.holdCall`: POST /api/calls/{callId}/hold with body `{hold}`;
the TS declaration defaults the flag to `true`. -/
def holdCall (callId : String) (hold : Bool) : FetchCall :=
  { url := "/api/calls/" ++ callId ++ "/hold", method := "POST",
    body := some (.obj [("hold", .bool hold)]) }

/-- Model of `holdCall` with its default argument (`hold: boolean = true`). -/
def holdCallDefault (callId : String) : FetchCall :=
  holdCall callId true

end ApiClient

namespace Api

/-- Model of `api.rooms.create`: fills `room_type` with `options?.roomType || 'call'`
and `max_participants` with `options?.maxParticipants || 10`. -/
def roomsCreate (roomName : String) (roomType : Option String)
    (maxParticipants : Option Nat) : FetchCall :=
  ApiClient.createRoom roomName
    (some (jsOrStr roomType "call"))
    (some (match maxParticipants with
           | some n => if n = 0 then 10 else n
           | none => 10))

/-- Model of `api.rooms.transfer`: delegates to `ApiClient.transferCall`. -/
def roomsTransfer (targetAgentId roomId : String) (callSummary : Option String) :
    FetchCall :=
  ApiClient.transferCall targetAgentId roomId callSummary

/-- Model of `api.participants.getToken`: fills `role` with `options?.role || 'caller'`
and passes `metadata` through (dropped by stringify when `undefined`). -/
def participantsGetToken (roomId identity name : String) (role : Option String)
    (metadata : Option Json) : FetchCall :=
  ApiClient.generateJoinToken roomId identity name
    (some (jsOrStr role "caller")) metadata

/-- Model of `api.calls.hold`: delegates to `ApiClient.holdCall`, defaulting the flag
to `true`. -/
def callsHold (callId : String) (hold : Bool) : FetchCall :=
  ApiClient.holdCall callId hold

end Api

namespace LK

/-- The `TransferRequest` interface of the LiveKit module
(fields in declaration order: `targetAgentId`, `callSummary?`, `roomId`). -/
structure TransferRequest where
  targetAgentId : String
  callSummary : Option String
  roomId : String

/-- The standalone `initiateTransfer` of the LiveKit module: POST
/api/rooms/transfer with `JSON.stringify(request)` — the request object's own
camelCase keys, not the snake_case keys used by `ApiClient.transferCall`. -/
def initiateTransferRequest (request : TransferRequest) : FetchCall :=
  { url := "/api/rooms/transfer", method := "POST",
    body := some (.obj ([("targetAgentId", .str request.targetAgentId)]
      ++ stringifyOpt "callSummary" (request.callSummary.map .str)
      ++ [("roomId", .str request.roomId)])) }

/-- The standalone `getJoinToken` of the LiveKit module: POST
/api/participants/token with `JSON.stringify({roomId, identity, name})`
(camelCase `roomId`). -/
def getJoinTokenRequest (roomId identity name : String) : FetchCall :=
  { url := "/api/participants/token", method := "POST",
    body := some (.obj [("roomId", .str roomId), ("identity", .str identity),
      ("name", .str name)]) }

/-- What the standalone `getJoinToken` resolves to: `data.token` only, not the
whole response record. -/
def getJoinTokenResult (data : Json) : Option Json :=
  data.lookup "token"

/-- One invocation of the transcript callback: the `text` argument
(`data.text`, possibly `undefined`) and the `speaker` argument. -/
structure TranscriptCallbackCall where
  text : Option Json
  speaker : String

/-- Strict equality `v === 'transcript'` on a possibly-absent property. -/
def isTranscriptTag (v : Option Json) : Bool :=
  match v with
  | some (.str s) => s == "transcript"
  | _ => false

/-- Model of `LiveKitManager.setupEventListeners`'s `RoomEvent.DataReceived` handler.
Its input is the result of `JSON.parse(new TextDecoder().decode(payload))`
(`none` when decoding or parsing throws — the `catch` swallows the error and
nothing is invoked) and the optional sending participant's identity.  The
result lists the transcript-callback invocations the handler performs:
one with `(data.text, participant?.identity || 'Unknown')` when
`data.type === 'transcript'`, none otherwise. -/
def onDataReceived (parsed : Option Json) (senderIdentity : Option String) :
    List TranscriptCallbackCall :=
  match parsed with
  | none => []
  | some data =>
    if isTranscriptTag (data.lookup "type") then
      [{ text := data.lookup "text",
         speaker := jsOrStr senderIdentity "Unknown" }]
    else
      []

end LK

namespace Hook

/-- One transcript entry of the `useLiveKit` hook:
`{ speaker, text, timestamp }` (timestamps abstracted to `Nat`). -/
structure TranscriptEntry where
  speaker : String
  text : String
  timestamp : Nat
deriving Repr, DecidableEq

/-- The hook's `onTranscript` handler:
`setTranscript(prev => [...prev, { speaker, text, timestamp: new Date() }])`. -/
def onTranscriptEvent (prev : List TranscriptEntry) (speaker text : String)
    (now : Nat) : List TranscriptEntry :=
  prev ++ [{ speaker := speaker, text := text, timestamp := now }]

/-- One element of `event.results` as the hook reads it: the first
alternative's transcript text and the `isFinal` flag. -/
structure SpeechResult where
  transcriptText : String
  isFinal : Bool
deriving Repr

/-- The `finalTranscript` accumulator of `recognition.onresult`: concatenate
the texts of the final results, in order, starting from `''`. -/
def finalTranscript (results : List SpeechResult) : String :=
  results.foldl (fun acc r => if r.isFinal then acc ++ r.transcriptText else acc) ""

/-- Model of `recognition.onresult`: when the accumulated final transcript is truthy
(non-empty), append one entry `{ speaker: identity || 'You',
text: finalTranscript.trim(), timestamp: new Date() }`; otherwise leave the
transcript unchanged. -/
def onSpeechResult (prev : List TranscriptEntry) (identity : Option String)
    (results : List SpeechResult) (now : Nat) : List TranscriptEntry :=
  let ft := finalTranscript results
  if ft = "" then prev
  else prev ++ [{ speaker := jsOrStr identity "You", text := strTrim ft,
                  timestamp := now }]

/-- The hook's `disconnect`: `setTranscript([])`. -/
def disconnectTranscript : List TranscriptEntry := []

/-- The slice of hook state `initiateTransfer` reads and writes. -/
structure HookState where
  managerPresent : Bool
  actualRoomId : Option String
  isTransferring : Bool
  transferError : Option String

/-- Outcome of the awaited `api.rooms.transfer` call: resolved with a JSON
response, or rejected with an error whose `message` property may be absent. -/
inductive CallOutcome where
  | resolved : Json → CallOutcome
  | rejected : Option String → CallOutcome

/-- The hook's `initiateTransfer(targetAgentId)`: the guard
`!managerRef.current || !actualRoomId` throws `'Not connected to a room'`
when no manager is present or `actualRoomId` is falsy — `null` or, by
JavaScript string falsiness, the empty string — issuing no fetch and
touching no state; otherwise set `isTransferring`/clear `transferError`,
await the transfer request, record the error message on failure, and reset
`isTransferring` in `finally`.  Returns the final state, the fetches issued,
and the result delivered to the caller. -/
def initiateTransfer (st : HookState) (targetAgentId : String)
    (outcome : CallOutcome) :
    HookState × List FetchCall × Except String Json :=
  match st.actualRoomId with
  | none => (st, [], .error "Not connected to a room")
  | some roomId =>
    if !st.managerPresent || roomId == "" then
      (st, [], .error "Not connected to a room")
    else
      let call := Api.roomsTransfer targetAgentId roomId none
      match outcome with
      | .resolved response =>
        ({ st with isTransferring := false, transferError := none },
         [call], .ok response)
      | .rejected m =>
        let errorMessage := jsOrStr m "Transfer failed"
        ({ st with isTransferring := false, transferError := some errorMessage },
         [call], .error errorMessage)

/-- The hook's `handleAutoConnect` request: `api.participants.getToken(roomId,
identity, name)` with no options, so `role` defaults to `'caller'` and
`metadata` is dropped. -/
def handleAutoConnectRequest (roomId identity name : String) : FetchCall :=
  Api.participantsGetToken roomId identity name none none

end Hook

namespace Registry

/-- Modelled from the spec: the Transfer State Machine's states (§4.5p - the
backend orchestration core is not among the repository's frontend sources).
Initial state on acceptance is `consultPending`; the terminals are
`completed`, `failed`, `cancelled`. -/
inductive TransferState where
  | consultPending
  | consultReady
  | summaryPending
  | summaryReady
  | summaryUnavailable
  | consulting
  | completing
  | completed
  | failed
  | cancelled
deriving DecidableEq, Repr

/-- Modelled from the spec: which transfer states are terminal (§4.5). -/
def TransferState.isTerminal : TransferState → Bool
  | .completed => true
  | .failed => true
  | .cancelled => true
  | _ => false

/-- Modelled from the spec: a Transfer record, reduced to the fields the
at-most-one-in-flight invariant concerns (§3: id, source room id, state). -/
structure Transfer where
  id : String
  sourceRoom : String
  state : TransferState
deriving DecidableEq, Repr

/-- Modelled from the spec: the registry's Transfer records (§3 ownership). -/
structure St where
  transfers : List Transfer
deriving Repr

/-- Number of non-terminal Transfers whose source room is `room`. -/
def countActive (reg : St) (room : String) : Nat :=
  (reg.transfers.filter
    (fun t => t.sourceRoom == room && !t.state.isTerminal)).length

/-- Modelled from the spec: the error returned to the losing `initiate()`
call (§4.5 design rules, §7 taxonomy). -/
inductive TransferError where
  | transferConflict
deriving DecidableEq, Repr

/-- Modelled from the spec: `initiate()` (§4.5 design rules): entry to
`ConsultPending` is rejected with `TransferConflict` if the source room
already has a non-terminal Transfer; otherwise a new Transfer in state
`ConsultPending` is recorded and its id returned.  Per §5, all operations on
a given room id are serialized, so two racing `initiate()` calls execute as
one of the two sequential orders. -/
def initiate (reg : St) (room : String) (newId : String) :
    Except TransferError (String × St) :=
  if 0 < countActive reg room then
    .error .transferConflict
  else
    .ok (newId,
      { transfers := reg.transfers
          ++ [{ id := newId, sourceRoom := room, state := .consultPending }] })

end Registry


/-! ## Theorems -/

/-- C1 (counterexample): the standalone `initiateTransfer` of the LiveKit
module serializes the `TransferRequest` object itself, so at the concrete
request `{targetAgentId: "agent-b", roomId: "room-1"}` the JSON body has no
`room_id` field at all (the room id travels under the camelCase key
`roomId`), contradicting the claim that every transfer-initiating function
sends the arguments under the field names `room_id`, `target_agent_id`,
`call_summary`. -/
theorem lk_initiateTransfer_body_not_snake_case :
    (LK.initiateTransferRequest
      { targetAgentId := "agent-b", callSummary := none, roomId := "room-1"
        }).bodyField "room_id" = none ∧
    (LK.initiateTransferRequest
      { targetAgentId := "agent-b", callSummary := none, roomId := "room-1"
        }).bodyField "roomId" = some (.str "room-1") ∧
    (LK.initiateTransferRequest
      { targetAgentId := "agent-b", callSummary := none, roomId := "room-1"
        }).bodyField "target_agent_id" = none :=
  ⟨rfl, rfl, rfl⟩

/-- C1 (amended): `ApiClient.transferCall` and the hook's `initiateTransfer`
issue a POST to `/api/rooms/transfer` whose JSON body carries the arguments
under `room_id`, `target_agent_id` and (when given) `call_summary`, and a
successful JSON response is delivered to the caller unchanged (hence with
whatever `consultRoomId`/`consultToken`/`transferId`/`status` fields the
server sent); the standalone `initiateTransfer` of the LiveKit module posts
to the same path but serializes the camelCase keys `targetAgentId`,
`callSummary`, `roomId` instead.  The hook conjunct is stated for a truthy
(non-empty) connected room id, since the hook's falsy guard throws before
issuing any request otherwise. -/
theorem transfer_request_contract
    (targetAgentId roomId : String) (callSummary : Option String)
    (st : Nat) (stx : String) (j : Json)
    (b : Bool) (e : Option String) (rid2 tgt2 : String) (o : Hook.CallOutcome)
    (req : LK.TransferRequest) (hrid : rid2 ≠ "") :
    (ApiClient.transferCall targetAgentId roomId callSummary).url =
      "/api/rooms/transfer" ∧
    (ApiClient.transferCall targetAgentId roomId callSummary).method = "POST" ∧
    (ApiClient.transferCall targetAgentId roomId callSummary).bodyField
      "room_id" = some (.str roomId) ∧
    (ApiClient.transferCall targetAgentId roomId callSummary).bodyField
      "target_agent_id" = some (.str targetAgentId) ∧
    (ApiClient.transferCall targetAgentId roomId callSummary).bodyField
      "call_summary" = callSummary.map .str ∧
    (Hook.initiateTransfer ⟨true, some rid2, b, e⟩ tgt2 o).2.1 =
      [ApiClient.transferCall tgt2 rid2 none] ∧
    ApiClient.handleResponse
      { ok := true, status := st, statusText := stx,
        contentType := some "application/json", jsonBody := some j } = .ok j ∧
    (LK.initiateTransferRequest req).url = "/api/rooms/transfer" ∧
    (LK.initiateTransferRequest req).method = "POST" ∧
    (LK.initiateTransferRequest req).bodyField "targetAgentId" =
      some (.str req.targetAgentId) ∧
    (LK.initiateTransferRequest req).bodyField "roomId" =
      some (.str req.roomId) ∧
    (LK.initiateTransferRequest req).bodyField "room_id" = none := by
  obtain ⟨tgt3, cs3, rid3⟩ := req
  refine ⟨rfl, rfl, ?_, ?_, ?_, ?_, rfl, ?_, rfl, ?_, ?_, ?_⟩
  · cases callSummary <;> rfl
  · cases callSummary <;> rfl
  · cases callSummary <;> rfl
  · cases o <;> simp [Hook.initiateTransfer, Api.roomsTransfer, hrid]
  · cases cs3 <;> rfl
  · cases cs3 <;> rfl
  · cases cs3 <;> rfl
  · cases cs3 <;> rfl

/-- C1 (witness): at the concrete connected room `room-1`, the hook's
transfer issues exactly the snake_case `ApiClient.transferCall` request. -/
theorem transfer_request_contract_witness :
    ("room-1" : String) ≠ "" ∧
    (Hook.initiateTransfer
      { managerPresent := true, actualRoomId := some "room-1",
        isTransferring := false, transferError := none } "agent-b"
      (.resolved (.obj []))).2.1 =
      [ApiClient.transferCall "agent-b" "room-1" none] :=
  ⟨by decide,
   (transfer_request_contract "agent-b" "room-1" none 200 "OK" (.obj [])
     false none "room-1" "agent-b" (.resolved (.obj []))
     { targetAgentId := "agent-b", callSummary := none, roomId := "room-1" }
     (by decide)).2.2.2.2.2.1⟩

/-- C2 (counterexample): the standalone `getJoinToken` of the LiveKit module
serializes `{roomId, identity, name}`, so at the concrete call
`getJoinToken("room-1", "alice", "Alice")` the JSON body has no `room_id`
field (the room id travels under the camelCase key `roomId`), contradicting
the claim that every token-requesting function sends the field `room_id`;
moreover it resolves to `data.token` alone rather than the whole response
record. -/
theorem lk_getJoinToken_body_not_snake_case :
    (LK.getJoinTokenRequest "room-1" "alice" "Alice").bodyField "room_id" =
      none ∧
    (LK.getJoinTokenRequest "room-1" "alice" "Alice").bodyField "roomId" =
      some (.str "room-1") ∧
    LK.getJoinTokenResult
      (.obj [("token", .str "tok"), ("url", .str "wss://x"),
             ("room_id", .str "room-1"), ("identity", .str "alice"),
             ("expires_at", .str "t")]) = some (.str "tok") :=
  ⟨rfl, rfl, rfl⟩

/-- C2 (amended): `ApiClient.generateJoinToken` issues a POST to
`/api/participants/token` whose JSON body carries `room_id`, `identity`,
`name`, plus `role` and `metadata` exactly when given, and a successful JSON
response is delivered to the caller unchanged (hence with whatever
`token`/`url`/`room_id`/`identity`/`expires_at` fields the server sent); the
hook's auto-connect path requests a token through the wrapper with `role`
defaulted to `'caller'` and no metadata; the standalone `getJoinToken` of the
LiveKit module posts to the same path but sends the camelCase key `roomId`
and resolves to the `token` field only. -/
theorem token_request_contract
    (room_id identity name : String) (role : Option String)
    (metadata : Option Json) (st : Nat) (stx : String) (j : Json)
    (roomId2 identity2 name2 : String)
    (roomId3 identity3 name3 : String) (tok : Json)
    (rest : List (String × Json)) :
    (ApiClient.generateJoinToken room_id identity name role metadata).url =
      "/api/participants/token" ∧
    (ApiClient.generateJoinToken room_id identity name role metadata).method =
      "POST" ∧
    (ApiClient.generateJoinToken room_id identity name role metadata).bodyField
      "room_id" = some (.str room_id) ∧
    (ApiClient.generateJoinToken room_id identity name role metadata).bodyField
      "identity" = some (.str identity) ∧
    (ApiClient.generateJoinToken room_id identity name role metadata).bodyField
      "name" = some (.str name) ∧
    (ApiClient.generateJoinToken room_id identity name role metadata).bodyField
      "role" = role.map .str ∧
    (ApiClient.generateJoinToken room_id identity name role metadata).bodyField
      "metadata" = metadata ∧
    Hook.handleAutoConnectRequest roomId2 identity2 name2 =
      ApiClient.generateJoinToken roomId2 identity2 name2
        (some "caller") none ∧
    ApiClient.handleResponse
      { ok := true, status := st, statusText := stx,
        contentType := some "application/json", jsonBody := some j } = .ok j ∧
    (LK.getJoinTokenRequest roomId3 identity3 name3).url =
      "/api/participants/token" ∧
    (LK.getJoinTokenRequest roomId3 identity3 name3).bodyField "room_id" =
      none ∧
    (LK.getJoinTokenRequest roomId3 identity3 name3).bodyField "roomId" =
      some (.str roomId3) ∧
    LK.getJoinTokenResult (.obj (("token", tok) :: rest)) = some tok := by
  refine ⟨rfl, rfl, ?_, ?_, ?_, ?_, ?_, rfl, rfl, rfl, rfl, rfl, rfl⟩
  · cases role <;> cases metadata <;> rfl
  · cases role <;> cases metadata <;> rfl
  · cases role <;> cases metadata <;> rfl
  · cases role <;> cases metadata <;> rfl
  · cases role <;> cases metadata <;> rfl

/-- C3: under the spec's per-room serialization, two racing `initiate()`
calls on the same source room execute in one of the two sequential orders;
whichever runs first succeeds with a fresh transferId, the other receives
`TransferConflict`, and afterwards exactly one Transfer on that room is in a
non-terminal state.  (The order of the two calls is immaterial: the statement
is symmetric in the two transfer ids.) -/
theorem initiate_race_exactly_one_succeeds
    (reg : Registry.St) (room idA idB : String)
    (h : Registry.countActive reg room = 0) :
    ∃ reg', Registry.initiate reg room idA = .ok (idA, reg') ∧
      Registry.initiate reg' room idB =
        .error Registry.TransferError.transferConflict ∧
      Registry.countActive reg' room = 1 := by
  have hp : ((fun t : Registry.Transfer =>
      t.sourceRoom == room && !t.state.isTerminal)
      { id := idA, sourceRoom := room,
        state := Registry.TransferState.consultPending }) = true := by
    show (room == room && !false) = true
    simp
  have h1 : Registry.countActive
      { transfers := reg.transfers
          ++ [{ id := idA, sourceRoom := room,
                state := Registry.TransferState.consultPending }] } room = 1 := by
    simp only [Registry.countActive] at h ⊢
    rw [List.filter_append, List.length_append, h, List.filter_singleton]
    show 0 + (cond (room == room && !false)
      [({ id := idA, sourceRoom := room,
          state := Registry.TransferState.consultPending } : Registry.Transfer)]
      []).length = 1
    simp
  clear hp
  refine ⟨_, ?_, ?_, h1⟩
  · simp [Registry.initiate, h]
  · simp [Registry.initiate, h1]

/-- C3 (witness): on the empty registry and room `call-123`, the first
`initiate` succeeds and the second receives `TransferConflict`. -/
theorem initiate_race_exactly_one_succeeds_witness :
    Registry.countActive { transfers := [] } "call-123" = 0 ∧
    (∃ reg', Registry.initiate { transfers := [] } "call-123" "t1" =
        .ok ("t1", reg') ∧
      Registry.initiate reg' "call-123" "t2" =
        .error Registry.TransferError.transferConflict ∧
      Registry.countActive reg' "call-123" = 1) :=
  ⟨rfl, initiate_race_exactly_one_succeeds { transfers := [] } "call-123"
    "t1" "t2" rfl⟩

/-- C4: `findRoomByName` returns a room from the listed rooms whose
`room_name` is exactly the requested name and whose `is_active` flag is set,
whenever such a room exists; it returns `undefined` exactly when no active
room of that name is in the list — in particular it never returns an inactive
room or a room with a different name. -/
theorem findRoomByName_spec (rooms : List ApiClient.RoomInfo) (n : String) :
    (∀ r, ApiClient.findRoomByName rooms n = some r →
      r ∈ rooms ∧ r.room_name = n ∧ r.is_active = true) ∧
    (ApiClient.findRoomByName rooms n = none ↔
      ∀ r ∈ rooms, ¬(r.room_name = n ∧ r.is_active = true)) := by
  constructor
  · intro r hr
    have hm := List.mem_of_find?_eq_some hr
    have hp := List.find?_some hr
    simp only [Bool.and_eq_true, beq_iff_eq] at hp
    exact ⟨hm, hp.1, hp.2⟩
  · rw [ApiClient.findRoomByName, List.find?_eq_none]
    constructor
    · intro hall r hr hc
      have := hall r hr
      simp [hc.1, hc.2] at this
    · intro hall r hr
      have := hall r hr
      simp only [not_and] at this
      simp only [Bool.and_eq_true, beq_iff_eq, not_and]
      intro h1
      exact fun h2 => this h1 h2

/-- C4 (witness): on a list holding an inactive and an active room both named
`alpha`, `findRoomByName` returns the active one, which is in the list, has
the requested name, and is active. -/
theorem findRoomByName_spec_witness :
    (ApiClient.RoomInfo.mk "id2" "alpha" "call" "t0" true) ∈
      [ApiClient.RoomInfo.mk "id1" "alpha" "call" "t0" false,
       ApiClient.RoomInfo.mk "id2" "alpha" "call" "t0" true] ∧
    (ApiClient.RoomInfo.mk "id2" "alpha" "call" "t0" true).room_name =
      "alpha" ∧
    (ApiClient.RoomInfo.mk "id2" "alpha" "call" "t0" true).is_active = true :=
  (findRoomByName_spec
    [ApiClient.RoomInfo.mk "id1" "alpha" "call" "t0" false,
     ApiClient.RoomInfo.mk "id2" "alpha" "call" "t0" true] "alpha").1
    (ApiClient.RoomInfo.mk "id2" "alpha" "call" "t0" true) (by decide)

/-- Helper: `a || b` yields `b` when the left operand is absent or falsy. -/
theorem jsOr_falsy (o : Option Json) (b : Json) (h : truthyOpt o = false) :
    jsOr o b = b := by
  cases o with
  | none => rfl
  | some v =>
    simp only [truthyOpt] at h
    simp [jsOr, h]

/-- Helper: `a || b` yields `a` when the left operand is truthy. -/
theorem jsOr_truthy (v b : Json) (h : v.truthy = true) : jsOr (some v) b = v := by
  simp [jsOr, h]

/-- C5: each `ApiClient` request performs exactly one fetch (no retry); a
non-ok response rejects with an error whose `status` is the HTTP status code
and whose `message` is the body's `detail` field when truthy, else the body's
`message` field when truthy, else the default `HTTP {status}: {statusText}`
string (also used when the error body is not JSON); a successful response
whose content type is not JSON resolves to the empty object. -/
theorem request_error_contract
    (baseUrl endpoint method : String) (body : Option Json) (net : Response)
    (st1 : Nat) (stx1 : String) (ct1 : Option String)
    (st2 : Nat) (stx2 : String) (ct2 : Option String) (b2 dv : Json)
    (st3 : Nat) (stx3 : String) (ct3 : Option String) (b3 mv : Json)
    (st4 : Nat) (stx4 : String) (ct4 : Option String) (b4 : Json)
    (st5 : Nat) (stx5 : String) (ct5 : Option String) (jb5 : Option Json) :
    (ApiClient.request baseUrl endpoint method body net).1 =
      [{ url := baseUrl ++ endpoint, method := method, body := body }] ∧
    ApiClient.handleResponse
      { ok := false, status := st1, statusText := stx1, contentType := ct1,
        jsonBody := none } =
      .error (.apiError
        { message := .str ("HTTP " ++ toString st1 ++ ": " ++ stx1),
          status := st1, details := none }) ∧
    (b2.lookup "detail" = some dv → dv.truthy = true →
      ApiClient.handleResponse
        { ok := false, status := st2, statusText := stx2, contentType := ct2,
          jsonBody := some b2 } =
        .error (.apiError
          { message := dv, status := st2, details := some b2 })) ∧
    (truthyOpt (b3.lookup "detail") = false → b3.lookup "message" = some mv →
      mv.truthy = true →
      ApiClient.handleResponse
        { ok := false, status := st3, statusText := stx3, contentType := ct3,
          jsonBody := some b3 } =
        .error (.apiError
          { message := mv, status := st3, details := some b3 })) ∧
    (truthyOpt (b4.lookup "detail") = false →
      truthyOpt (b4.lookup "message") = false →
      ApiClient.handleResponse
        { ok := false, status := st4, statusText := stx4, contentType := ct4,
          jsonBody := some b4 } =
        .error (.apiError
          { message := .str ("HTTP " ++ toString st4 ++ ": " ++ stx4),
            status := st4, details := some b4 })) ∧
    (ctIsJson ct5 = false →
      ApiClient.handleResponse
        { ok := true, status := st5, statusText := stx5, contentType := ct5,
          jsonBody := jb5 } = .ok (.obj [])) := by
  refine ⟨rfl, rfl, ?_, ?_, ?_, ?_⟩
  · intro hd ht
    simp [ApiClient.handleResponse, hd, jsOr_truthy dv _ ht]
  · intro hd hm ht
    simp [ApiClient.handleResponse, jsOr_falsy _ _ hd, hm, jsOr_truthy mv _ ht]
  · intro hd hm
    simp [ApiClient.handleResponse, jsOr_falsy _ _ hd, jsOr_falsy _ _ hm]
  · intro hct
    simp [ApiClient.handleResponse, hct]

/-- C5 (witness): concrete error responses — `detail` wins, then `message`,
then the default string; a successful `204` without JSON content resolves to
the empty object. -/
theorem request_error_contract_witness :
    ApiClient.handleResponse
      { ok := false, status := 404, statusText := "Not Found",
        contentType := none,
        jsonBody := some (.obj [("detail", .str "room not found")]) } =
      .error (.apiError
        { message := .str "room not found", status := 404,
          details := some (.obj [("detail", .str "room not found")]) }) ∧
    ApiClient.handleResponse
      { ok := false, status := 409, statusText := "Conflict",
        contentType := none,
        jsonBody := some (.obj [("message", .str "duplicate")]) } =
      .error (.apiError
        { message := .str "duplicate", status := 409,
          details := some (.obj [("message", .str "duplicate")]) }) ∧
    ApiClient.handleResponse
      { ok := false, status := 500, statusText := "Server Error",
        contentType := none, jsonBody := some (.obj []) } =
      .error (.apiError
        { message := .str ("HTTP " ++ toString 500 ++ ": " ++ "Server Error"),
          status := 500, details := some (.obj []) }) ∧
    ApiClient.handleResponse
      { ok := true, status := 204, statusText := "No Content",
        contentType := none, jsonBody := none } = .ok (.obj []) := by
  have h := request_error_contract "http://localhost:8000" "/api/health" "GET"
    none { ok := true, status := 200, statusText := "OK", contentType := none,
           jsonBody := none }
    404 "Not Found" none
    404 "Not Found" none (.obj [("detail", .str "room not found")])
      (.str "room not found")
    409 "Conflict" none (.obj [("message", .str "duplicate")])
      (.str "duplicate")
    500 "Server Error" none (.obj [])
    204 "No Content" none none
  exact ⟨h.2.2.1 rfl (by decide), h.2.2.2.1 rfl rfl (by decide),
    h.2.2.2.2.1 rfl rfl, h.2.2.2.2.2 rfl⟩

/-- C6 (counterexample): one speech-recognition event carrying TWO final
results makes the hook append a single entry holding their concatenation —
not one entry per final result as the claim, read per result, requires. -/
theorem speech_two_final_results_single_entry :
    Hook.onSpeechResult [] (some "agent-a")
      [{ transcriptText := "hello ", isFinal := true },
       { transcriptText := "world", isFinal := true }] 0 =
      [{ speaker := "agent-a", text := "hello world", timestamp := 0 }] ∧
    ([{ speaker := "agent-a", text := "hello world", timestamp := 0 }] :
      List Hook.TranscriptEntry).length ≠ 2 :=
  ⟨rfl, by decide⟩

/-- C6 (amended): every entry has a speaker, a text and a timestamp (by the
type of the sequence); each transcript data event appends exactly one entry
at the end, leaving the existing entries untouched; each speech-recognition
event appends exactly one entry — the trimmed concatenation of its final
results — when that concatenation is non-empty, and appends nothing
otherwise; neither handler ever empties a non-empty transcript, which becomes
empty only through `disconnect`. -/
theorem transcript_append_only_contract
    (prev : List Hook.TranscriptEntry) (speaker text : String) (now : Nat)
    (prev2 : List Hook.TranscriptEntry) (identity : Option String)
    (results : List Hook.SpeechResult) (now2 : Nat)
    (prev3 : List Hook.TranscriptEntry) (identity3 : Option String)
    (results3 : List Hook.SpeechResult) (now3 : Nat)
    (e : Hook.TranscriptEntry) (rest : List Hook.TranscriptEntry) :
    Hook.onTranscriptEvent prev speaker text now =
      prev ++ [{ speaker := speaker, text := text, timestamp := now }] ∧
    (Hook.finalTranscript results ≠ "" →
      Hook.onSpeechResult prev2 identity results now2 =
        prev2 ++ [{ speaker := jsOrStr identity "You",
                    text := strTrim (Hook.finalTranscript results),
                    timestamp := now2 }]) ∧
    (Hook.finalTranscript results3 = "" →
      Hook.onSpeechResult prev3 identity3 results3 now3 = prev3) ∧
    Hook.onTranscriptEvent (e :: rest) speaker text now ≠ [] ∧
    Hook.onSpeechResult (e :: rest) identity results now2 ≠ [] ∧
    Hook.disconnectTranscript = [] := by
  refine ⟨rfl, ?_, ?_, ?_, ?_, rfl⟩
  · intro h
    simp [Hook.onSpeechResult, h]
  · intro h
    simp [Hook.onSpeechResult, h]
  · simp [Hook.onTranscriptEvent]
  · simp only [Hook.onSpeechResult]
    split
    · simp
    · simp

/-- C6 (witness): a speech event with one final result appends its entry; a
speech event with only interim (non-final) results appends nothing. -/
theorem transcript_append_only_contract_witness :
    Hook.onSpeechResult [] (some "caller-1")
      [{ transcriptText := "yes", isFinal := true }] 5 =
      [] ++ [{ speaker := jsOrStr (some "caller-1") "You",
               text := strTrim (Hook.finalTranscript
                 [{ transcriptText := "yes", isFinal := true }]),
               timestamp := 5 }] ∧
    Hook.onSpeechResult [] (some "caller-1")
      [{ transcriptText := "nope", isFinal := false }] 5 = [] := by
  have h := transcript_append_only_contract [] "caller-1" "hi" 1
    [] (some "caller-1") [{ transcriptText := "yes", isFinal := true }] 5
    [] (some "caller-1") [{ transcriptText := "nope", isFinal := false }] 5
    { speaker := "s", text := "t", timestamp := 0 } []
  exact ⟨h.2.1 (by decide), h.2.2.1 rfl⟩

/-- C7: `holdCall(callId, hold)` issues a POST to `/api/calls/{callId}/hold`
with JSON body `{hold: <flag>}`; the omitted flag defaults to `true` (both in
`ApiClient.holdCall` and in the `api.calls.hold` wrapper, which delegates
unchanged); a successful JSON response is returned to the caller unchanged. -/
theorem holdCall_contract (callId : String) (hold : Bool) (st : Nat)
    (stx : String) (j : Json) :
    ApiClient.holdCall callId hold =
      { url := "/api/calls/" ++ callId ++ "/hold", method := "POST",
        body := some (.obj [("hold", .bool hold)]) } ∧
    ApiClient.holdCallDefault callId = ApiClient.holdCall callId true ∧
    Api.callsHold callId hold = ApiClient.holdCall callId hold ∧
    ApiClient.handleResponse
      { ok := true, status := st, statusText := stx,
        contentType := some "application/json", jsonBody := some j } =
      .ok j :=
  ⟨rfl, rfl, rfl, rfl⟩

/-- C8: the hook's `initiateTransfer` invoked with `actualRoomId` falsy —
null, or the empty string, since the JS guard `!actualRoomId` also fires on
empty strings — throws `'Not connected to a room'` without issuing any fetch
and without touching `transferError` (or any other state); when the
precondition holds (manager present and a truthy room id), after the call
settles `isTransferring` is `false` in both branches, and `transferError` is
set (non-null) exactly in the failure branch, where the thrown message is
the request error's message (defaulting to `'Transfer failed'`). -/
theorem hook_transfer_contract
    (mgr b : Bool) (e : Option String) (target : String)
    (o : Hook.CallOutcome)
    (mgr1 b1 : Bool) (e1 : Option String) (target1 : String)
    (o1 : Hook.CallOutcome)
    (b2 : Bool) (e2 : Option String) (rid2 : String)
    (resp : Json) (m : Option String) (target2 target3 : String)
    (hrid : rid2 ≠ "") :
    Hook.initiateTransfer
      { managerPresent := mgr, actualRoomId := none, isTransferring := b,
        transferError := e } target o =
      ({ managerPresent := mgr, actualRoomId := none, isTransferring := b,
         transferError := e }, [], .error "Not connected to a room") ∧
    Hook.initiateTransfer
      { managerPresent := mgr1, actualRoomId := some "",
        isTransferring := b1, transferError := e1 } target1 o1 =
      ({ managerPresent := mgr1, actualRoomId := some "",
         isTransferring := b1, transferError := e1 }, [],
       .error "Not connected to a room") ∧
    Hook.initiateTransfer
      { managerPresent := true, actualRoomId := some rid2,
        isTransferring := b2, transferError := e2 } target2 (.resolved resp) =
      ({ managerPresent := true, actualRoomId := some rid2,
         isTransferring := false, transferError := none },
       [Api.roomsTransfer target2 rid2 none], .ok resp) ∧
    Hook.initiateTransfer
      { managerPresent := true, actualRoomId := some rid2,
        isTransferring := b2, transferError := e2 } target3 (.rejected m) =
      ({ managerPresent := true, actualRoomId := some rid2,
         isTransferring := false,
         transferError := some (jsOrStr m "Transfer failed") },
       [Api.roomsTransfer target3 rid2 none],
       .error (jsOrStr m "Transfer failed")) := by
  refine ⟨rfl, ?_, ?_, ?_⟩
  · cases mgr1 <;> rfl
  · simp [Hook.initiateTransfer, hrid]
  · simp [Hook.initiateTransfer, hrid]

/-- C8 (witness): at the connected room `room-1`, a resolved transfer
settles with `isTransferring` false and `transferError` cleared, delivering
the response. -/
theorem hook_transfer_contract_witness :
    ("room-1" : String) ≠ "" ∧
    Hook.initiateTransfer
      { managerPresent := true, actualRoomId := some "room-1",
        isTransferring := true, transferError := some "old" } "agent-b"
      (.resolved (.obj [])) =
      ({ managerPresent := true, actualRoomId := some "room-1",
         isTransferring := false, transferError := none },
       [Api.roomsTransfer "agent-b" "room-1" none], .ok (.obj [])) :=
  ⟨by decide,
   (hook_transfer_contract true true (some "old") "agent-b"
     (.resolved (.obj [])) true true (some "old") "agent-b"
     (.resolved (.obj [])) true (some "old") "room-1" (.obj [])
     (some "boom") "agent-b" "agent-b" (by decide)).2.2.1⟩

/-- C9 (counterexample): a `transcript`-typed data payload whose sender is
PRESENT but has the empty identity is delivered with speaker `'Unknown'`
rather than the sender's identity, because the code computes
`participant?.identity || 'Unknown'` and the empty string is falsy —
contradicting the claim that `'Unknown'` is used only when the sender is
absent. -/
theorem dataReceived_empty_identity_unknown :
    LK.onDataReceived
      (some (.obj [("type", .str "transcript"), ("text", .str "hi")]))
      (some "") =
      [{ text := some (.str "hi"), speaker := "Unknown" }] ∧
    ("" : String) ≠ "Unknown" :=
  ⟨rfl, by decide⟩

/-- C9 (amended): the transcript callback is invoked exactly when the payload
decodes and parses to JSON whose `type` field is the string `'transcript'`
(payloads that fail to decode or parse are ignored — the handler's `catch`
swallows the error, which the model reflects by being a total function), and
then once, with the sender's identity as speaker when the sender is present
with a non-empty identity, and `'Unknown'` when the sender is absent or its
identity is empty. -/
theorem dataReceived_contract
    (sender : Option String) (data : Json)
    (sender2 : Option String) (data2 : Json) (ident : String) :
    LK.onDataReceived none sender = [] ∧
    (LK.isTranscriptTag (data2.lookup "type") = false →
      LK.onDataReceived (some data2) sender2 = []) ∧
    (LK.isTranscriptTag (data.lookup "type") = true →
      LK.onDataReceived (some data) sender =
        [{ text := data.lookup "text",
           speaker := jsOrStr sender "Unknown" }]) ∧
    (ident ≠ "" → jsOrStr (some ident) "Unknown" = ident) ∧
    jsOrStr none "Unknown" = "Unknown" ∧
    jsOrStr (some "") "Unknown" = "Unknown" := by
  refine ⟨rfl, ?_, ?_, ?_, rfl, rfl⟩
  · intro h
    simp [LK.onDataReceived, h]
  · intro h
    simp [LK.onDataReceived, h]
  · intro h
    simp [jsOrStr, h]

/-- C9 (witness): a transcript payload from `alice` is delivered once with
speaker `alice`; a payload of another type is ignored. -/
theorem dataReceived_contract_witness :
    LK.onDataReceived (some (.obj [("type", .str "transcript")]))
      (some "alice") =
      [{ text := (Json.obj [("type", Json.str "transcript")]).lookup "text",
         speaker := jsOrStr (some "alice") "Unknown" }] ∧
    LK.onDataReceived (some (.obj [("type", .str "chat")])) (some "alice") =
      [] ∧
    jsOrStr (some "alice") "Unknown" = "alice" := by
  have h := dataReceived_contract (some "alice")
    (.obj [("type", .str "transcript")]) (some "alice")
    (.obj [("type", .str "chat")]) "alice"
  exact ⟨h.2.2.1 rfl, h.2.1 rfl, h.2.2.2.1 (by decide)⟩

/-- C10: the convenience wrappers always send complete bodies — for every
call, `api.rooms.create`'s request carries `room_type` and
`max_participants`, which are `'call'` and `10` when the caller passes no
options, and `api.participants.getToken`'s request carries `role`, which is
`'caller'` when the caller passes no options. -/
theorem wrapper_defaults_contract
    (roomName : String) (rt : Option String) (mp : Option Nat)
    (roomName2 : String)
    (roomId identity name : String) (role : Option String) (md : Option Json)
    (roomId2 identity2 name2 : String) (md2 : Option Json) :
    ((Api.roomsCreate roomName rt mp).bodyField "room_type").isSome = true ∧
    ((Api.roomsCreate roomName rt mp).bodyField
      "max_participants").isSome = true ∧
    (Api.roomsCreate roomName2 none none).bodyField "room_type" =
      some (.str "call") ∧
    (Api.roomsCreate roomName2 none none).bodyField "max_participants" =
      some (.num 10) ∧
    ((Api.participantsGetToken roomId identity name role md).bodyField
      "role").isSome = true ∧
    (Api.participantsGetToken roomId2 identity2 name2 none md2).bodyField
      "role" = some (.str "caller") := by
  refine ⟨rfl, rfl, rfl, rfl, ?_, ?_⟩
  · cases md <;> rfl
  · cases md2 <;> rfl
